import Mathlib

/-!
# Virtual Farm browser client (`src/app.js`)

A shallow embedding of the client script and the properties its specification
states about it.

## Reading of the source text

`app.js` as committed is not well-formed JavaScript in two places:

* line 13, `if (crypto && typeof crypto.randomUUID === "function" {` lacks the
  closing parenthesis of the condition;
* line 30, `opts.method !-- "GET"` is not an operator of the language.

Line 13 is read with the parenthesis closed. On line 30 the operands and the
guard `opts.method &&` are read as written and the comparison itself is left
open: its outcome for a non-empty method is an argument (`notGet`) of the
model, so that nothing proved below depends on a choice between `!==` and the
case-insensitive test the specification has in mind. Without these two readings
the script has no behaviour at all. Everything else is embedded as it
evaluates. In particular line 16, `Date.now().tostring(36)`, is well-formed:
numbers have no `tostring` property, so the call raises a `TypeError`, and it is
modelled that way.

## Conventions

* Numbers are `Nat`/`Int`; timestamps are epoch milliseconds, in the range where
  doubles are exact integers. On `Int`, `/` with a positive literal divisor is
  the floor quotient, i.e. `Math.floor(a / b)`.
* A JavaScript exception is the `error` side of `Except String`, carrying the
  `message` of the thrown value.
* The browser (storage, `crypto`, clock, network) is an explicit argument.
* An object indexed by plot id (`state[id]`, `byId[item.plotId] = item`) is a
  function `Nat → Option Item`; items are always truthy objects.
* Data from the server is taken at its documented shape: a parsed body is
  `{ items: [...] }`, an item has a number `plotId`, a string `crop` and a
  `plantedAt` that denotes a valid timestamp. Header names and values in `opts`
  are valid ones, so that `new Headers` accepts them as they are. The
  identity is any string: `headers.set` normalises and validates it.
* Each handler runs from its first statement to its last; what a second
  handler started meanwhile would do is outside the model.
-/

set_option linter.unusedVariables false

namespace VirtualFarm

/-! ## Constants -/

/-- Line 7: `const API_BASE = "/api"`. -/
def API_BASE : String := "/api"

/-- Line 45: `Array.from({ length: 36 }, (_, i) => i)`. -/
def PLOTS : List Nat := List.range 36

/-! ## Identity bootstrap (lines 10-21) -/

/-- The content of `localStorage`: `getItem` as a function of the key. -/
abbrev Storage := String → Option String

/-- The call `localStorage.setItem(key, value)`. -/
def Storage.setItem (ls : Storage) (key value : String) : Storage :=
  fun k => if k = key then some value else ls k

/-- Message of the `TypeError` raised by `Date.now().tostring(36)` (line 16). -/
def tostringTypeError : String := "Date.now(...).tostring is not a function"

/-- Lines 10-21. `randomUUID` is `none` when `crypto.randomUUID` is not a
function, and `some u` when it is and the call on line 14 returns `u`.
The result is the storage afterwards and the returned value or the exception. -/
def getUserId (randomUUID : Option String) (ls : Storage) : Storage × Except String String :=
  let id := ls "vf_user_id"
  -- `!id` holds for `null` and for the empty string
  if id = none ∨ id = some "" then
    match randomUUID with
    | some u => (ls.setItem "vf_user_id" u, .ok u)
    | none => (ls, .error tostringTypeError)
  else
    (ls, .ok (id.getD ""))

/-! ## Request headers -/

/-- A header list of the Fetch standard, names held in lower case. -/
abbrev Headers := List (String × String)

/-- Byte-lowercasing of a header name: `A`-`Z` become `a`-`z`. -/
def byteLowercase (name : String) : String :=
  String.mk (name.toList.map Char.toLower)

/-- The constructor `new Headers(init)`: every entry of `init` is appended. -/
def Headers.new (init : List (String × String)) : Headers :=
  init.map fun kv => (byteLowercase kv.1, kv.2)

/-- Replace the value of the first header named `n`, drop the later ones. -/
def Headers.setFirst (n v : String) : Headers → Headers
  | [] => []
  | kv :: rest =>
    if kv.1 = n then (n, v) :: rest.filter (fun e => e.1 ≠ n)
    else kv :: Headers.setFirst n v rest

/-- The header-list operation "set" of the Fetch standard: the first header
named `name` takes `value` and the later ones are dropped; when there is none
the header is appended. -/
def Headers.put (h : Headers) (name value : String) : Headers :=
  let n := byteLowercase name
  if h.any (fun e => e.1 = n) then Headers.setFirst n value h else h ++ [(n, value)]

/-- HTTP whitespace: tab, line feed, carriage return, space. -/
def isHTTPWhitespace (c : Char) : Bool :=
  c.toNat = 9 || c.toNat = 10 || c.toNat = 13 || c.toNat = 32

/-- Normalisation of a header value: leading and trailing HTTP whitespace is
removed. -/
def normalizeValue (value : String) : String :=
  String.mk ((value.toList.dropWhile isHTTPWhitespace).reverse.dropWhile isHTTPWhitespace).reverse

/-- A string converts to a `ByteString`: no character above U+00FF. -/
def isByteString (value : String) : Bool :=
  value.toList.all (fun c => c.toNat ≤ 255)

/-- A normalised value is a header value: it holds no NUL, LF or CR. -/
def isHeaderValue (value : String) : Bool :=
  value.toList.all (fun c => c.toNat ≠ 0 ∧ c.toNat ≠ 10 ∧ c.toNat ≠ 13)

/-- Message of the `TypeError` of a value that is not a `ByteString`; the text
is the engine's. -/
def byteStringTypeError : String := "Headers.set: String contains non ISO-8859-1 code point."

/-- Message of the `TypeError` of a value that is not a header value; the text
is the engine's. -/
def headerValueTypeError : String := "Headers.set: Invalid value"

/-- The call `headers.set(name, value)` for a valid `name`: the value is
converted to a `ByteString`, normalised and validated, each of which may raise
a `TypeError`, and then set in the list. -/
def Headers.set (h : Headers) (name value : String) : Except String Headers :=
  if isByteString value = false then .error byteStringTypeError
  else
    let value := normalizeValue value
    if isHeaderValue value = false then .error headerValueTypeError
    else .ok (h.put name value)

/-- The call `headers.get(name)`: the values under `name` joined by `", "`, `null` when
there is none. -/
def Headers.get (h : Headers) (name : String) : Option String :=
  match (h.filter (fun e => e.1 = byteLowercase name)).map (fun e => e.2) with
  | [] => none
  | vs => some (", ".intercalate vs)

/-! ## API gateway client (lines 26-36) -/

/-- The `opts` argument of `api`; an absent property is `none`. -/
structure Opts where
  method : Option String := none
  body : Option String := none
  headers : Option (List (String × String)) := none

/-- What `fetch(url, init)` is called with. -/
structure Request where
  url : String
  method : Option String
  body : Option String
  headers : Headers
deriving DecidableEq

/-- One planted item of the `/state` body; `plantedAt` is
`new Date(item.plantedAt).getTime()`. -/
structure Item where
  plotId : Nat
  crop : String
  plantedAt : Int
deriving DecidableEq

/-- A parsed response body, `{ items: [...] }`. -/
structure Body where
  items : List Item
deriving DecidableEq

/-- A `Response`: `text` is what `res.text()` resolves to (`none` when it
rejects), `json` what `res.json()` resolves to or the message it rejects with. -/
structure Response where
  status : Nat
  statusText : String
  text : Option String
  json : Except String Body

/-- The flag `res.ok`: the status is in the range 200-299. -/
def Response.ok (res : Response) : Bool :=
  decide (200 ≤ res.status ∧ res.status ≤ 299)

/-- Lines 27-33: the arguments `api(path, opts)` passes to `fetch`, or the
exception raised before `fetch` is reached. `notGet m` is the outcome of the
comparison of line 30 for the non-empty method `m`. -/
def apiRequest (notGet : String → Bool) (userId path : String) (opts : Opts) :
    Except String Request :=
  let url := API_BASE ++ path
  let headers := Headers.new (opts.headers.getD [])
  match headers.set "x-user-id" userId with
  | .error e => .error e
  | .ok headers =>
    let withContentType :=
      match opts.method with
      | some m =>
        if m ≠ "" ∧ notGet m = true then headers.set "content-type" "application/json"
        else .ok headers
      | none => .ok headers
    match withContentType with
    | .error e => .error e
    | .ok headers =>
      .ok { url := url, method := opts.method, body := opts.body, headers := headers }

/-- Lines 33-35: what `api` makes of the outcome of `fetch` (`error` when
`fetch` itself rejects). -/
def apiResult (outcome : Except String Response) : Except String Body :=
  match outcome with
  | .error e => .error e
  | .ok res =>
    if !res.ok then .error (res.text.getD res.statusText)
    else res.json

/-! ## Grid renderer (lines 44-101) -/

/-- A child `div` of a plot cell. -/
structure Div where
  className : String
  textContent : String
deriving DecidableEq

/-- A plot cell: its class list, `dataset.plotId` and children. -/
structure Plot where
  classList : List String
  plotId : String
  children : List Div
deriving DecidableEq

/-- The call `classList.add(token)`. -/
def classListAdd (cl : List String) (token : String) : List String :=
  if token ∈ cl then cl else cl ++ [token]

/-- The call `classList.remove(token)`. -/
def classListRemove (cl : List String) (token : String) : List String :=
  cl.filter (fun t => t ≠ token)

/-- Lines 82-90. -/
def cropEmoji (crop : String) : String :=
  match crop with
  | "lettuce" => "🥬"
  | "basil" => "🌿"
  | "radish" => "🌶️"
  | "wheat" => "🌾"
  | _ => "🌱"

/-- Lines 94-100, from the elapsed seconds `s` on. -/
def timeAgoOfSeconds (s : Int) : String :=
  if s < 60 then toString s ++ "s ago"
  else
    let m := s / 60
    if m < 60 then toString m ++ "m ago"
    else
      let h := m / 60
      if h < 24 then toString h ++ "h ago"
      else
        let d := h / 24
        toString d ++ "d ago"

/-- Lines 92-101; `now` is the value of `Date.now()`, `iso` the epoch
milliseconds of the timestamp. -/
def timeAgo (now iso : Int) : String :=
  let s := (now - iso) / 1000
  timeAgoOfSeconds s

/-- Lines 50-70: the cell built for plot `id`; `now` is the clock as read
during this iteration. -/
def createPlot (now : Int) (selectedPlot : Nat) (state : Nat → Option Item) (id : Nat) : Plot :=
  let classList := ["plot"] ++ (if id = selectedPlot then ["selected"] else [])
  let plotId := toString id
  match state id with
  | some item =>
    { classList := classListAdd classList "planted"
      plotId := plotId
      children := [⟨"crop", cropEmoji item.crop⟩,
                   ⟨"name", item.crop ++ " • " ++ timeAgo now item.plantedAt⟩] }
  | none =>
    { classList := classList
      plotId := plotId
      children := [⟨"name", "(empty)"⟩] }

/-- Lines 47-80: the children of the grid element after `renderGrid(state)`.
`gridEl` is its content before the call, `now id` the clock as read while the
cell of plot `id` is built. -/
def renderGrid (now : Nat → Int) (selectedPlot : Nat) (state : Nat → Option Item)
    (gridEl : List Plot) : List Plot :=
  let gridEl : List Plot := []  -- line 48: `gridEl.innerHTML = ""`
  PLOTS.foldl (fun gridEl id => gridEl ++ [createPlot (now id) selectedPlot state id]) gridEl

/-- The `state = {}` default of `renderGrid`. -/
def emptyState : Nat → Option Item := fun _ => none

/-! ## Page state and handlers (lines 72-76, 103-146) -/

/-- The mutable state of the page: `selectedPlot`, the children of the grid
element, the status text, and the log of the `fetch` calls issued so far. -/
structure Page where
  selectedPlot : Nat
  grid : List Plot
  status : String
  sent : List Request
deriving DecidableEq

/-- Lines 72-76: the click handler of the cell of plot `id`. -/
def plotClick (id : Nat) (p : Page) : Page :=
  let cleared := p.grid.map fun el => { el with classList := classListRemove el.classList "selected" }
  { p with
    selectedPlot := id
    grid := cleared.modify (fun el => { el with classList := classListAdd el.classList "selected" }) id }

/-- The browser as the handlers see it: the bootstrapped identity, the outcome
of the `n`-th `fetch` of the page, the clock read while plot `id` is rendered,
and the outcome of the comparison of line 30. -/
structure Env where
  userId : String
  net : Nat → Except String Response
  now : Nat → Int
  notGet : String → Bool

/-- Lines 26-36 on the page state: when the headers are built the request is
logged and the outcome is that of the matching `fetch`; when building them
raises, nothing is sent. -/
def api (env : Env) (path : String) (opts : Opts) (p : Page) : Page × Except String Body :=
  match apiRequest env.notGet env.userId path opts with
  | .error e => (p, .error e)
  | .ok req => ({ p with sent := p.sent ++ [req] }, apiResult (env.net p.sent.length))

/-- Line 109: `byId[item.plotId] = item`. -/
def assign (byId : Nat → Option Item) (item : Item) : Nat → Option Item :=
  fun k => if k = item.plotId then some item else byId k

/-- Lines 108-109: the mapping `refresh` builds from `data.items`. -/
def buildById (items : List Item) : Nat → Option Item :=
  items.foldl assign emptyState

/-- Lines 103-116. -/
def refresh (env : Env) (p : Page) : Page × Except String Unit :=
  let p := { p with status := "Loading…" }
  match api env "/state" {} p with
  | (p, .ok data) =>
    let byId := buildById data.items
    ({ p with grid := renderGrid env.now p.selectedPlot byId p.grid, status := "" }, .ok ())
  | (p, .error message) =>
    ({ p with grid := renderGrid env.now p.selectedPlot emptyState p.grid, status := message },
      .ok ())

/-- The text `JSON.stringify` gives one character of a string. -/
def quoteJSONChar (c : Char) : String :=
  if c.toNat = 8 then "\\b"
  else if c.toNat = 9 then "\\t"
  else if c.toNat = 10 then "\\n"
  else if c.toNat = 12 then "\\f"
  else if c.toNat = 13 then "\\r"
  else if c.toNat = 34 then "\\\""
  else if c.toNat = 92 then "\\\\"
  else if c.toNat < 32 then
    "\\u00" ++ String.mk [Nat.digitChar (c.toNat / 16), Nat.digitChar (c.toNat % 16)]
  else c.toString

/-- The text `JSON.stringify` gives a string. -/
def quoteJSONString (s : String) : String :=
  "\"" ++ String.join (s.toList.map quoteJSONChar) ++ "\""

/-- Line 124: `JSON.stringify({ plotId: selectedPlot, crop })`. -/
def plantBody (selectedPlot : Nat) (crop : String) : String :=
  "\x7b\"plotId\":" ++ toString selectedPlot ++ ",\"crop\":" ++ quoteJSONString crop ++ "\x7d"

/-- Line 137: `JSON.stringify({ plotId: selectedPlot })`. -/
def harvestBody (selectedPlot : Nat) : String :=
  "\x7b\"plotId\":" ++ toString selectedPlot ++ "\x7d"

/-- Lines 118-130: the click handler of the plant button; `crop` is
`cropSel.value`. -/
def plantClick (env : Env) (crop : String) (p : Page) : Page :=
  let p := { p with status := "Planting…" }
  match api env "/plant" { method := some "POST", body := some (plantBody p.selectedPlot crop) } p with
  | (p, .ok _) =>
    match refresh env p with
    | (p, .ok _) => p
    | (p, .error message) => { p with status := message }
  | (p, .error message) => { p with status := message }

/-- Lines 132-143: the click handler of the harvest button. -/
def harvestClick (env : Env) (p : Page) : Page :=
  let p := { p with status := "Harvesting…" }
  match api env "/harvest" { method := some "POST", body := some (harvestBody p.selectedPlot) } p with
  | (p, .ok _) =>
    match refresh env p with
    | (p, .ok _) => p
    | (p, .error message) => { p with status := message }
  | (p, .error message) => { p with status := message }

/-- Lines 44 and 145: the page once `renderGrid()` has run at load; `status` is
the text the markup gives the status element. -/
def pageLoad (now : Nat → Int) (status : String) : Page :=
  { selectedPlot := 0
    grid := renderGrid now 0 emptyState []
    status := status
    sent := [] }

/-- What can happen to the grid after load: a click on the cell of one of the 36
plots, or a call of `renderGrid` with some mapping. -/
inductive Event where
  | click (id : Fin 36)
  | render (state : Nat → Option Item) (now : Nat → Int)

/-- The effect of one event on the page. -/
def Event.apply (p : Page) : Event → Page
  | .click id => plotClick id.val p
  | .render state now => { p with grid := renderGrid now p.selectedPlot state p.grid }

/-- The page after a sequence of events. -/
def runEvents (p : Page) (events : List Event) : Page :=
  events.foldl Event.apply p

/-- The plot of the last click of the sequence, `start` when there is none. -/
def lastClicked (start : Nat) (events : List Event) : Nat :=
  events.foldl (fun k e => match e with
    | .click id => id.val
    | .render _ _ => k) start

/-! ## Statements taken from the specification -/

/-- The relative age as the specification words it: direct thresholds and
direct quotients of the elapsed seconds. -/
def timeAgoDirect (s : Nat) : String :=
  if s < 60 then toString s ++ "s ago"
  else if s < 3600 then toString (s / 60) ++ "m ago"
  else if s < 86400 then toString (s / 3600) ++ "h ago"
  else toString (s / 86400) ++ "d ago"

/-- The last item of the list whose `plotId` is `k`, as the specification words
the mapping. -/
def lastWithPlotId (items : List Item) (k : Nat) : Option Item :=
  (items.filter (fun item => item.plotId = k)).getLast?

/-- A cell is marked selected. -/
def Plot.selected (el : Plot) : Prop := "selected" ∈ el.classList

/-- A cell is marked planted. -/
def Plot.planted (el : Plot) : Prop := "planted" ∈ el.classList

instance (el : Plot) : Decidable el.selected := by unfold Plot.selected; infer_instance

instance (el : Plot) : Decidable el.planted := by unfold Plot.planted; infer_instance

/-- A cell shows only the label `(empty)`. -/
def Plot.showsEmpty (el : Plot) : Prop :=
  ¬ el.planted ∧ el.children = [⟨"name", "(empty)"⟩]

instance (el : Plot) : Decidable el.showsEmpty := by unfold Plot.showsEmpty; infer_instance

/-- The selection invariant: `selectedPlot` is `k`, the grid has 36 cells, and a
cell is marked selected exactly when it is the cell of plot `k`. -/
def SelectionInv (p : Page) (k : Nat) : Prop :=
  p.selectedPlot = k ∧ p.grid.length = 36 ∧
  ∀ i el, p.grid[i]? = some el → (el.selected ↔ i = k)

/-- The identity is accepted by `headers.set`. -/
def validHeaderValue (value : String) : Bool :=
  isByteString value && isHeaderValue (normalizeValue value)

/-- The request of `api("/state")` for a valid identity. -/
def stateRequest (userId : String) : Request :=
  ⟨"/api/state", none, none, [("x-user-id", normalizeValue userId)]⟩

/-- The request of a `POST` with a body and no headers of its own, for a valid
identity. -/
def postRequest (notGet : String → Bool) (userId path body : String) : Request :=
  ⟨API_BASE ++ path, some "POST", some body,
    ("x-user-id", normalizeValue userId) ::
      (if notGet "POST" = true then [("content-type", "application/json")] else [])⟩

/-! ### JSON texts, read by the grammar of JSON -/

/-- The value of a run of decimal digits, and what follows it. -/
def readDigits (acc : Nat) : List Char → Nat × List Char
  | [] => (acc, [])
  | c :: rest =>
    if c.isDigit then readDigits (acc * 10 + (c.toNat - 48)) rest else (acc, c :: rest)

/-- A JSON number without sign, fraction or exponent: `0`, or a digit other
than `0` followed by digits. -/
def readNumber (input : List Char) : Option (Nat × List Char) :=
  match input with
  | [] => none
  | c :: rest =>
    if c.toNat = 48 then
      match rest with
      | [] => some (0, [])
      | d :: _ => if d.isDigit then none else some (0, rest)
    else if c.isDigit then some (readDigits 0 (c :: rest))
    else none

/-- The value of a hexadecimal digit. -/
def hexValue (c : Char) : Option Nat :=
  if 48 ≤ c.toNat ∧ c.toNat ≤ 57 then some (c.toNat - 48)
  else if 97 ≤ c.toNat ∧ c.toNat ≤ 102 then some (c.toNat - 87)
  else if 65 ≤ c.toNat ∧ c.toNat ≤ 70 then some (c.toNat - 55)
  else none

/-- The character a two-character escape of JSON denotes, by the character
after the backslash: quote, backslash, slash, `b`, `f`, `n`, `r`, `t`. -/
def unescape (e : Char) : Option Char :=
  if e.toNat = 34 then some (Char.ofNat 34)
  else if e.toNat = 92 then some (Char.ofNat 92)
  else if e.toNat = 47 then some (Char.ofNat 47)
  else if e.toNat = 98 then some (Char.ofNat 8)
  else if e.toNat = 102 then some (Char.ofNat 12)
  else if e.toNat = 110 then some (Char.ofNat 10)
  else if e.toNat = 114 then some (Char.ofNat 13)
  else if e.toNat = 116 then some (Char.ofNat 9)
  else none

/-- One more character in front of what was read. -/
def consChar (c : Char) (r : Option (List Char × List Char)) : Option (List Char × List Char) :=
  r.map fun x => (c :: x.1, x.2)

/-- The characters a JSON string denotes, read from after its opening quote up
to its closing quote, and what follows: escapes are decoded, a raw control
character is refused. -/
def readStringBody : List Char → Option (List Char × List Char)
  | [] => none
  | c :: rest =>
    if c.toNat = 34 then some ([], rest)
    else if c.toNat = 92 then
      match rest with
      | [] => none
      | e :: rest2 =>
        if e.toNat = 117 then
          match rest2 with
          | a :: b :: c2 :: d :: rest3 =>
            match hexValue a, hexValue b, hexValue c2, hexValue d with
            | some x1, some x2, some x3, some x4 =>
              let n := ((x1 * 16 + x2) * 16 + x3) * 16 + x4
              if 55296 ≤ n ∧ n ≤ 57343 then none
              else consChar (Char.ofNat n) (readStringBody rest3)
            | _, _, _, _ => none
          | _ => none
        else
          match unescape e with
          | some ch => consChar ch (readStringBody rest2)
          | none => none
    else if c.toNat < 32 then none
    else consChar c (readStringBody rest)

/-- The input after the literal text `lit`, when it starts with it. -/
def expect : List Char → List Char → Option (List Char)
  | [], input => some input
  | _ :: _, [] => none
  | l :: lit, c :: input => if l = c then expect lit input else none

/-- The object a JSON text of the form `{"plotId":<number>,"crop":<string>}`
denotes: its `plotId` and its `crop`. -/
def readPlantBody (body : String) : Option (Nat × String) :=
  match expect "\x7b\"plotId\":".toList body.toList with
  | none => none
  | some r =>
    match readNumber r with
    | none => none
    | some (plotId, r) =>
      match expect ",\"crop\":\"".toList r with
      | none => none
      | some r =>
        match readStringBody r with
        | none => none
        | some (crop, r) => if r = "\x7d".toList then some (plotId, String.mk crop) else none

/-- The object a JSON text of the form `{"plotId":<number>}` denotes: its
`plotId`. -/
def readHarvestBody (body : String) : Option Nat :=
  match expect "\x7b\"plotId\":".toList body.toList with
  | none => none
  | some r =>
    match readNumber r with
    | none => none
    | some (plotId, r) => if r = "\x7d".toList then some plotId else none

/-- The value of a list of decimal digits. -/
def digitsValue (digits : List Char) : Nat :=
  digits.foldl (fun a c => a * 10 + (c.toNat - 48)) 0

/-! ## Relative age -/

theorem toString_natCast (n : Nat) : toString (n : Int) = toString n := rfl

theorem timeAgoOfSeconds_natCast (s : Nat) : timeAgoOfSeconds (s : Int) = timeAgoDirect s := by
  have e2 : ((s : Int) / 60 / 60) = ((s / 3600 : Nat) : Int) := by omega
  have e3 : ((s : Int) / 60 / 60 / 24) = ((s / 86400 : Nat) : Int) := by omega
  simp only [timeAgoOfSeconds, timeAgoDirect]
  split_ifs <;> first
    | rfl
    | (exfalso; omega)
    | (rw [e3]; rfl)
    | (rw [e2]; rfl)

/-- C1: when the elapsed time between `plantedAt` and the clock is the
non-negative number `s` of whole seconds, `timeAgo` returns the text of the
direct rule (seconds below 60, minutes below 3600, hours below 86400, days
otherwise, each the floor quotient); the six boundary values of the
specification read as it lists them. -/
theorem timeAgo_eq_timeAgoDirect (now iso : Int) (s : Nat)
    (hs : (now - iso) / 1000 = (s : Int)) :
    timeAgo now iso = timeAgoDirect s ∧
    timeAgoOfSeconds 59 = "59s ago" ∧ timeAgoOfSeconds 60 = "1m ago" ∧
    timeAgoOfSeconds 3599 = "59m ago" ∧ timeAgoOfSeconds 3600 = "1h ago" ∧
    timeAgoOfSeconds 86399 = "23h ago" ∧ timeAgoOfSeconds 86400 = "1d ago" := by
  refine ⟨?_, by decide, by decide, by decide, by decide, by decide, by decide⟩
  unfold timeAgo
  simp only [hs]
  exact timeAgoOfSeconds_natCast s

theorem timeAgo_eq_timeAgoDirect_witness :
    (1700000300999 - 1700000000000 : Int) / 1000 = ((300 : Nat) : Int) ∧
    timeAgo 1700000300999 1700000000000 = "5m ago" :=
  ⟨by decide, (timeAgo_eq_timeAgoDirect 1700000300999 1700000000000 300 (by decide)).1⟩

/-! ## The mapping built by `refresh` -/

theorem buildById_concat (items : List Item) (item : Item) :
    buildById (items ++ [item]) = assign (buildById items) item := by
  simp [buildById, List.foldl_append]

theorem lastWithPlotId_concat (items : List Item) (item : Item) (k : Nat) :
    lastWithPlotId (items ++ [item]) k =
      if k = item.plotId then some item else lastWithPlotId items k := by
  unfold lastWithPlotId
  by_cases h : k = item.plotId
  · subst h
    simp [List.filter_append, List.filter_cons, List.getLast?_append]
  · have h2 : ¬ item.plotId = k := fun e => h e.symm
    simp [List.filter_append, List.filter_cons, h, h2]

/-- C3: at every plot id `k` the mapping `refresh` builds from the list of
items holds the last item of the list whose `plotId` is `k`; it holds nothing
at `k` exactly when no item of the list has `plotId` `k`. -/
theorem buildById_eq_lastWithPlotId (items : List Item) (k : Nat) :
    buildById items k = lastWithPlotId items k ∧
    (buildById items k = none ↔ ∀ item ∈ items, item.plotId ≠ k) := by
  have key : ∀ l : List Item, buildById l k = lastWithPlotId l k := by
    intro l
    induction l using List.reverseRecOn with
    | nil => rfl
    | append_singleton l a ih =>
      rw [buildById_concat, lastWithPlotId_concat, ← ih]
      rfl
  refine ⟨key items, ?_⟩
  rw [key items]
  unfold lastWithPlotId
  rw [List.getLast?_eq_none_iff, List.filter_eq_nil_iff]
  simp

theorem buildById_eq_lastWithPlotId_witness :
    buildById [⟨3, "lettuce", 10⟩, ⟨5, "wheat", 20⟩, ⟨3, "basil", 30⟩] 3 =
      some ⟨3, "basil", 30⟩ ∧
    (buildById [⟨3, "lettuce", 10⟩, ⟨5, "wheat", 20⟩, ⟨3, "basil", 30⟩] 4 = none ↔
      ∀ item ∈ [(⟨3, "lettuce", 10⟩ : Item), ⟨5, "wheat", 20⟩, ⟨3, "basil", 30⟩],
        item.plotId ≠ 4) :=
  ⟨(buildById_eq_lastWithPlotId
      [⟨3, "lettuce", 10⟩, ⟨5, "wheat", 20⟩, ⟨3, "basil", 30⟩] 3).1,
    (buildById_eq_lastWithPlotId
      [⟨3, "lettuce", 10⟩, ⟨5, "wheat", 20⟩, ⟨3, "basil", 30⟩] 4).2⟩

/-! ## The cells of the grid -/

theorem foldl_concat_eq_map {α β : Type} (f : α → β) (l : List α) (init : List β) :
    l.foldl (fun g a => g ++ [f a]) init = init ++ l.map f := by
  induction l generalizing init with
  | nil => simp
  | cons a l ih => simp [List.foldl_cons, ih]

theorem renderGrid_eq_map (now : Nat → Int) (selectedPlot : Nat) (state : Nat → Option Item)
    (gridEl : List Plot) :
    renderGrid now selectedPlot state gridEl =
      (List.range 36).map (fun id => createPlot (now id) selectedPlot state id) := by
  unfold renderGrid PLOTS
  simp only []
  rw [foldl_concat_eq_map (fun id => createPlot (now id) selectedPlot state id)]
  simp

theorem renderGrid_length (now : Nat → Int) (selectedPlot : Nat) (state : Nat → Option Item)
    (gridEl : List Plot) : (renderGrid now selectedPlot state gridEl).length = 36 := by
  simp [renderGrid_eq_map]

theorem renderGrid_getElem? (now : Nat → Int) (selectedPlot : Nat) (state : Nat → Option Item)
    (gridEl : List Plot) (i : Nat) (hi : i < 36) :
    (renderGrid now selectedPlot state gridEl)[i]? =
      some (createPlot (now i) selectedPlot state i) := by
  rw [renderGrid_eq_map, List.getElem?_map, List.getElem?_range hi]
  rfl

theorem renderGrid_getElem?_some (now : Nat → Int) (selectedPlot : Nat)
    (state : Nat → Option Item) (gridEl : List Plot) (i : Nat) (el : Plot)
    (h : (renderGrid now selectedPlot state gridEl)[i]? = some el) :
    i < 36 ∧ el = createPlot (now i) selectedPlot state i := by
  have hi : i < 36 := by
    have := (List.getElem?_eq_some_iff.mp h).1
    rwa [renderGrid_length] at this
  rw [renderGrid_getElem? now selectedPlot state gridEl i hi] at h
  exact ⟨hi, (Option.some.inj h).symm⟩

theorem createPlot_plotId (now : Int) (selectedPlot : Nat) (state : Nat → Option Item)
    (id : Nat) : (createPlot now selectedPlot state id).plotId = toString id := by
  unfold createPlot
  cases state id <;> rfl

theorem createPlot_selected (now : Int) (selectedPlot : Nat) (state : Nat → Option Item)
    (id : Nat) : (createPlot now selectedPlot state id).selected ↔ id = selectedPlot := by
  unfold createPlot Plot.selected classListAdd
  cases state id <;> by_cases h : id = selectedPlot <;> simp [h]

theorem createPlot_some (now : Int) (selectedPlot : Nat) (state : Nat → Option Item)
    (id : Nat) (item : Item) (h : state id = some item) :
    (createPlot now selectedPlot state id).planted ∧
    (createPlot now selectedPlot state id).children =
      [⟨"crop", cropEmoji item.crop⟩,
       ⟨"name", item.crop ++ " • " ++ timeAgo now item.plantedAt⟩] := by
  unfold createPlot Plot.planted classListAdd
  rw [h]
  by_cases hs : id = selectedPlot <;> simp [hs]

theorem createPlot_none (now : Int) (selectedPlot : Nat) (state : Nat → Option Item)
    (id : Nat) (h : state id = none) :
    (createPlot now selectedPlot state id).showsEmpty := by
  unfold createPlot Plot.showsEmpty Plot.planted
  rw [h]
  by_cases hs : id = selectedPlot <;> simp [hs]

theorem cropEmoji_default (crop : String) (h1 : crop ≠ "lettuce") (h2 : crop ≠ "basil")
    (h3 : crop ≠ "radish") (h4 : crop ≠ "wheat") : cropEmoji crop = "🌱" := by
  unfold cropEmoji
  split <;> simp_all

/-- C2: `renderGrid` produces exactly 36 cells; the cell at position `i` carries
plot id `i`; when the mapping has an item at `i` the cell is marked planted and
shows the glyph `cropEmoji item.crop` and the label
`<crop> • <timeAgo plantedAt>`, and when it has none the cell shows only
`(empty)`. `cropEmoji` gives the four named crops their glyphs and every other
name the seedling. -/
theorem renderGrid_cells (now : Nat → Int) (selectedPlot : Nat) (state : Nat → Option Item)
    (gridEl : List Plot) (i : Nat) (hi : i < 36) :
    (renderGrid now selectedPlot state gridEl).length = 36 ∧
    (∃ el, (renderGrid now selectedPlot state gridEl)[i]? = some el ∧
      el.plotId = toString i ∧
      (∀ item, state i = some item →
        el.planted ∧
        el.children = [⟨"crop", cropEmoji item.crop⟩,
          ⟨"name", item.crop ++ " • " ++ timeAgo (now i) item.plantedAt⟩]) ∧
      (state i = none → el.showsEmpty)) ∧
    cropEmoji "lettuce" = "🥬" ∧ cropEmoji "basil" = "🌿" ∧
    cropEmoji "radish" = "🌶️" ∧ cropEmoji "wheat" = "🌾" ∧
    (∀ crop, crop ≠ "lettuce" → crop ≠ "basil" → crop ≠ "radish" → crop ≠ "wheat" →
      cropEmoji crop = "🌱") := by
  refine ⟨renderGrid_length _ _ _ _, ⟨_, renderGrid_getElem? now selectedPlot state gridEl i hi,
    createPlot_plotId _ _ _ _, ?_, ?_⟩, by decide, by decide, by decide, by decide,
    cropEmoji_default⟩
  · intro item h
    exact createPlot_some _ _ _ _ item h
  · intro h
    exact createPlot_none _ _ _ _ h

/-- The scenario of the specification: plot 3 holds lettuce planted five minutes
before the clock reading; plot 3 shows the lettuce glyph and `lettuce • 5m ago`,
the other 35 cells show `(empty)`. -/
theorem renderGrid_cells_witness :
    (3 < 36) ∧
    (∃ el, (renderGrid (fun _ => 1700000300000) 0
        (buildById [⟨3, "lettuce", 1700000000000⟩]) [])[3]? = some el ∧
      el.plotId = "3" ∧ el.planted ∧
      el.children = [⟨"crop", "🥬"⟩, ⟨"name", "lettuce • 5m ago"⟩]) ∧
    ((renderGrid (fun _ => 1700000300000) 0
        (buildById [⟨3, "lettuce", 1700000000000⟩]) []).eraseIdx 3).all
      (fun el => decide el.showsEmpty) = true := by
  refine ⟨by decide, ?_, by decide⟩
  obtain ⟨_, ⟨el, hel, hid, hsome, _⟩, _⟩ := renderGrid_cells (fun _ => 1700000300000) 0
    (buildById [⟨3, "lettuce", 1700000000000⟩]) [] 3 (by decide)
  exact ⟨el, hel, hid, hsome ⟨3, "lettuce", 1700000000000⟩ rfl⟩

/-! ## Re-rendering -/

/-- C10 as stated fails: the same mapping (plot 0 holds lettuce planted at time
0) rendered with the same selection a second time, one second later, yields a
different cell for plot 0 (`0s ago` becomes `1s ago`). -/
theorem renderGrid_second_call_differs :
    renderGrid (fun _ => 1000) 0 (buildById [⟨0, "lettuce", 0⟩])
        (renderGrid (fun _ => 0) 0 (buildById [⟨0, "lettuce", 0⟩]) []) ≠
      renderGrid (fun _ => 0) 0 (buildById [⟨0, "lettuce", 0⟩]) [] := by
  decide

/-- C10 amended: the content `renderGrid` yields does not depend on the prior
content of the grid, and a second call with the same mapping and the same
selection yields the output of the first whenever every planted item's relative
age reads the same at both calls. -/
theorem renderGrid_replaces_and_repeats (now now2 : Nat → Int) (selectedPlot : Nat)
    (state : Nat → Option Item) (gridEl gridEl2 : List Plot)
    (hage : ∀ id item, id < 36 → state id = some item →
      timeAgo (now2 id) item.plantedAt = timeAgo (now id) item.plantedAt) :
    renderGrid now selectedPlot state gridEl = renderGrid now selectedPlot state gridEl2 ∧
    renderGrid now2 selectedPlot state (renderGrid now selectedPlot state gridEl) =
      renderGrid now selectedPlot state gridEl := by
  refine ⟨rfl, ?_⟩
  rw [renderGrid_eq_map, renderGrid_eq_map]
  apply List.map_congr_left
  intro id hid
  have hlt : id < 36 := List.mem_range.mp hid
  unfold createPlot
  cases h : state id with
  | none => rfl
  | some item => simp only [hage id item hlt h]

theorem renderGrid_replaces_and_repeats_witness :
    renderGrid (fun _ => 999) 0 (buildById [⟨0, "lettuce", 0⟩])
        (renderGrid (fun _ => 0) 0 (buildById [⟨0, "lettuce", 0⟩]) []) =
      renderGrid (fun _ => 0) 0 (buildById [⟨0, "lettuce", 0⟩]) [] :=
  (renderGrid_replaces_and_repeats (fun _ => 0) (fun _ => 999) 0
    (buildById [⟨0, "lettuce", 0⟩]) [] [] (by
      intro id item _ h
      have : item.plantedAt = 0 := by
        unfold buildById at h
        simp only [List.foldl, assign, emptyState] at h
        split at h
        · cases h; rfl
        · cases h
      rw [this]
      rfl)).2

/-! ## Selection -/

theorem classListRemove_not_mem (cl : List String) (t : String) :
    t ∉ classListRemove cl t := by
  simp [classListRemove]

theorem classListAdd_mem (cl : List String) (t : String) : t ∈ classListAdd cl t := by
  unfold classListAdd
  split
  · assumption
  · simp

theorem selectionInv_pageLoad (now : Nat → Int) (status : String) :
    SelectionInv (pageLoad now status) 0 := by
  refine ⟨rfl, renderGrid_length now 0 emptyState [], ?_⟩
  intro i el h
  obtain ⟨_, rfl⟩ := renderGrid_getElem?_some now 0 emptyState [] i el h
  exact createPlot_selected _ _ _ _

theorem selectionInv_render (p : Page) (k : Nat) (h : SelectionInv p k)
    (state : Nat → Option Item) (now : Nat → Int) :
    SelectionInv (Event.apply p (.render state now)) k := by
  obtain ⟨hsel, _, _⟩ := h
  unfold SelectionInv
  simp only [Event.apply]
  refine ⟨hsel, renderGrid_length now p.selectedPlot state p.grid, ?_⟩
  intro i el hel
  obtain ⟨_, hcell⟩ := renderGrid_getElem?_some now p.selectedPlot state p.grid i el hel
  rw [hcell, ← hsel]
  exact createPlot_selected _ _ _ _

theorem selectionInv_click (p : Page) (k : Nat) (h : SelectionInv p k) (id : Fin 36) :
    SelectionInv (Event.apply p (.click id)) id.val := by
  obtain ⟨_, hlen, _⟩ := h
  refine ⟨rfl, ?_, ?_⟩
  · simp [Event.apply, plotClick, hlen]
  · intro i el hel
    simp only [Event.apply, plotClick, List.getElem?_modify, List.getElem?_map] at hel
    cases hg : p.grid[i]? with
    | none => simp [hg] at hel
    | some e =>
      simp only [hg, Option.map_some', Option.map_eq_map] at hel
      by_cases hi : id.val = i
      · simp only [hi, if_true, Option.some.injEq] at hel
        subst hel
        simp only [Plot.selected]
        exact ⟨fun _ => hi.symm, fun _ => classListAdd_mem _ _⟩
      · simp only [hi, if_false, Option.some.injEq] at hel
        subst hel
        simp only [Plot.selected]
        constructor
        · intro hm
          exact absurd hm (classListRemove_not_mem _ _)
        · intro he
          exact absurd he.symm hi

theorem countP_eq_one_of_index {α : Type} (P : α → Bool) (l : List α) (k : Nat)
    (hk : k < l.length) (h : ∀ i el, l[i]? = some el → (P el = true ↔ i = k)) :
    l.countP P = 1 := by
  induction l generalizing k with
  | nil => simp at hk
  | cons a t ih =>
    cases k with
    | zero =>
      have ha : P a = true := (h 0 a (by simp)).mpr rfl
      have ht : t.countP P = 0 := by
        rw [List.countP_eq_zero]
        intro el hel
        obtain ⟨i, hi, rfl⟩ := List.getElem_of_mem hel
        intro hp
        have := (h (i + 1) t[i] (by simp [List.getElem?_eq_getElem hi])).mp hp
        omega
      rw [List.countP_cons_of_pos _ _ ha, ht]
    | succ k =>
      have ha : ¬ P a = true := fun hp => by
        have := (h 0 a (by simp)).mp hp
        omega
      rw [List.countP_cons_of_neg _ _ ha]
      apply ih k (by simpa using hk)
      intro i el hel
      have := h (i + 1) el (by simpa using hel)
      rw [this]
      omega

theorem runEvents_cons (p : Page) (e : Event) (events : List Event) :
    runEvents p (e :: events) = runEvents (Event.apply p e) events := rfl

theorem lastClicked_click (k : Nat) (id : Fin 36) (events : List Event) :
    lastClicked k (.click id :: events) = lastClicked id.val events := rfl

theorem lastClicked_render (k : Nat) (state : Nat → Option Item) (now : Nat → Int)
    (events : List Event) :
    lastClicked k (.render state now :: events) = lastClicked k events := rfl

theorem selectionInv_runEvents (events : List Event) (p : Page) (k : Nat)
    (h : SelectionInv p k) (hk : k < 36) :
    SelectionInv (runEvents p events) (lastClicked k events) ∧ lastClicked k events < 36 := by
  induction events generalizing p k with
  | nil => exact ⟨h, hk⟩
  | cons e events ih =>
    cases e with
    | click id =>
      rw [runEvents_cons, lastClicked_click]
      exact ih _ _ (selectionInv_click p k h id) id.isLt
    | render state now =>
      rw [runEvents_cons, lastClicked_render]
      exact ih _ _ (selectionInv_render p k h state now) hk

/-- C4: at load `selectedPlot` is 0 and the first render, with the empty
mapping, shows all 36 plots `(empty)` with only plot 0 marked selected; after
every finite sequence of clicks on plot cells and re-renders with any mappings
the grid has 36 cells, `selectedPlot` is the most recently clicked plot `k`
(0 when nothing was clicked), exactly one cell is marked selected, and a cell is
marked selected exactly when it is the cell of plot `k`. -/
theorem selection_after_events (now : Nat → Int) (status : String) (events : List Event)
    (i : Nat) (hi : i < 36) :
    ((pageLoad now status).selectedPlot = 0 ∧
      ∃ el, (pageLoad now status).grid[i]? = some el ∧ el.showsEmpty ∧
        (el.selected ↔ i = 0)) ∧
    (runEvents (pageLoad now status) events).selectedPlot = lastClicked 0 events ∧
    lastClicked 0 events < 36 ∧
    (runEvents (pageLoad now status) events).grid.length = 36 ∧
    (runEvents (pageLoad now status) events).grid.countP (fun el => decide el.selected) = 1 ∧
    ∃ el, (runEvents (pageLoad now status) events).grid[i]? = some el ∧
      (el.selected ↔ i = lastClicked 0 events) := by
  obtain ⟨⟨hsel, hlen, hcells⟩, hlt⟩ :=
    selectionInv_runEvents events (pageLoad now status) 0 (selectionInv_pageLoad now status)
      (by decide)
  refine ⟨⟨rfl, _, renderGrid_getElem? now 0 emptyState [] i hi, createPlot_none _ _ _ _ rfl,
    createPlot_selected _ _ _ _⟩, hsel, hlt, hlen, ?_, ?_⟩
  · apply countP_eq_one_of_index _ _ (lastClicked 0 events) (by rw [hlen]; exact hlt)
    intro j el hel
    rw [decide_eq_true_iff]
    exact hcells j el hel
  · have hi2 : i < (runEvents (pageLoad now status) events).grid.length := by
      rw [hlen]; exact hi
    exact ⟨_, List.getElem?_eq_getElem hi2, hcells i _ (List.getElem?_eq_getElem hi2)⟩

theorem selection_after_events_witness :
    (7 < 36) ∧
    (runEvents (pageLoad (fun _ => 0) "")
      [.click 5, .render emptyState (fun _ => 0), .click 7]).selectedPlot = 7 ∧
    ∃ el, (runEvents (pageLoad (fun _ => 0) "")
      [.click 5, .render emptyState (fun _ => 0), .click 7]).grid[7]? = some el ∧
      el.selected := by
  obtain ⟨_, hsel, _, _, _, el, hel, hiff⟩ := selection_after_events (fun _ => 0) ""
    [.click 5, .render emptyState (fun _ => 0), .click 7] 7 (by decide)
  exact ⟨by decide, hsel, el, hel, hiff.mpr rfl⟩

/-! ## Request headers -/

theorem filter_setFirst_same (n v : String) (h : Headers)
    (hany : h.any (fun e => e.1 = n) = true) :
    (Headers.setFirst n v h).filter (fun e => e.1 = n) = [(n, v)] := by
  induction h with
  | nil => simp at hany
  | cons kv rest ih =>
    unfold Headers.setFirst
    by_cases hk : kv.1 = n
    · simp only [hk, if_true, List.filter_cons, decide_True]
      simp [List.filter_filter]
    · have hrest : rest.any (fun e => e.1 = n) = true := by
        simpa [List.any_cons, hk] using hany
      simp only [hk, if_false, List.filter_cons, decide_False]
      exact ih hrest

theorem filter_setFirst_other (n v m : String) (h : Headers) (hm : m ≠ n) :
    (Headers.setFirst n v h).filter (fun e => e.1 = m) = h.filter (fun e => e.1 = m) := by
  induction h with
  | nil => rfl
  | cons kv rest ih =>
    unfold Headers.setFirst
    by_cases hk : kv.1 = n
    · have hkm : ¬ kv.1 = m := fun e => hm (e.symm.trans hk)
      have hnm : ¬ n = m := fun e => hm e.symm
      simp only [hk, if_true, List.filter_cons, hnm, decide_False, List.filter_filter]
      simp only [Bool.false_eq_true, if_false]
      apply List.filter_congr
      intro e _
      by_cases hem : e.1 = m
      · have : e.1 ≠ n := fun e2 => hm (hem.symm.trans e2)
        simp [hem, this, hm]
      · simp [hem]
    · simp only [hk, if_false, List.filter_cons, ih]

theorem Headers.get_put_same (h : Headers) (name value name2 : String)
    (hn : byteLowercase name2 = byteLowercase name) :
    (h.put name value).get name2 = some value := by
  unfold Headers.get Headers.put
  rw [hn]
  by_cases hany : h.any (fun e => e.1 = byteLowercase name) = true
  · simp only [hany, if_true, filter_setFirst_same _ _ _ hany]
    rfl
  · have hnone : h.filter (fun e => e.1 = byteLowercase name) = [] := by
      rw [List.filter_eq_nil_iff]
      intro e he
      simp only [List.any_eq_true, not_exists, not_and] at hany
      exact hany e he
    simp only [hany, List.filter_append, hnone, List.filter_cons, decide_True, if_true,
      Bool.false_eq_true, if_false, List.nil_append, List.filter_nil, List.map_cons, List.map_nil]
    rfl

theorem Headers.get_put_other (h : Headers) (name value name2 : String)
    (hn : byteLowercase name2 ≠ byteLowercase name) :
    (h.put name value).get name2 = h.get name2 := by
  unfold Headers.get Headers.put
  by_cases hany : h.any (fun e => e.1 = byteLowercase name) = true
  · simp only [hany, if_true, filter_setFirst_other _ _ _ _ hn]
  · have hne : ¬ byteLowercase name = byteLowercase name2 := fun e => hn e.symm
    simp only [hany, List.filter_append]
    simp [List.filter_cons, hne]

theorem Headers.set_valid (h : Headers) (name value : String)
    (hv : validHeaderValue value = true) :
    h.set name value = .ok (h.put name (normalizeValue value)) := by
  unfold validHeaderValue at hv
  rw [Bool.and_eq_true] at hv
  unfold Headers.set
  simp [hv.1, hv.2]

theorem Headers.set_invalid (h : Headers) (name value : String)
    (hv : validHeaderValue value = false) :
    h.set name value = .error byteStringTypeError ∨
      h.set name value = .error headerValueTypeError := by
  unfold validHeaderValue at hv
  unfold Headers.set
  cases hb : isByteString value
  · left; simp
  · right
    rw [hb, Bool.true_and] at hv
    simp [hv]

theorem Headers.set_contentType (h : Headers) :
    h.set "content-type" "application/json" = .ok (h.put "content-type" "application/json") := by
  have hv : validHeaderValue "application/json" = true := by decide
  have hn : normalizeValue "application/json" = "application/json" := by decide
  rw [Headers.set_valid h _ _ hv, hn]

/-! ## API gateway client -/

/-- The headers of the request for a valid identity. -/
theorem apiRequest_valid (notGet : String → Bool) (userId path : String) (opts : Opts)
    (hv : validHeaderValue userId = true) :
    apiRequest notGet userId path opts =
      .ok { url := API_BASE ++ path, method := opts.method, body := opts.body,
            headers :=
              match opts.method with
              | some m =>
                if m ≠ "" ∧ notGet m = true then
                  ((Headers.new (opts.headers.getD [])).put "x-user-id"
                    (normalizeValue userId)).put "content-type" "application/json"
                else (Headers.new (opts.headers.getD [])).put "x-user-id" (normalizeValue userId)
              | none =>
                (Headers.new (opts.headers.getD [])).put "x-user-id" (normalizeValue userId) } := by
  unfold apiRequest
  simp only [Headers.set_valid _ _ _ hv]
  cases opts.method with
  | none => rfl
  | some m =>
    by_cases hc : m ≠ "" ∧ notGet m = true
    · simp only [if_pos hc, Headers.set_contentType]
    · simp only [if_neg hc]

theorem apiRequest_invalid (notGet : String → Bool) (userId path : String) (opts : Opts)
    (hv : validHeaderValue userId = false) :
    apiRequest notGet userId path opts = .error byteStringTypeError ∨
      apiRequest notGet userId path opts = .error headerValueTypeError := by
  unfold apiRequest
  rcases Headers.set_invalid (Headers.new (opts.headers.getD [])) "x-user-id" userId hv with h | h
  · left; simp only [h]
  · right; simp only [h]

/-- C7 as stated fails: with the identity ` u1 ` (a space on either side) the
request carries `x-user-id: u1`, not the identity; with the identity `用户`
`headers.set` raises and no request is issued at all. -/
theorem apiRequest_identity_not_verbatim :
    apiRequest (fun _ => true) " u1 " "/state" ⟨none, none, none⟩ =
      .ok ⟨"/api/state", none, none, [("x-user-id", "u1")]⟩ ∧
    (Headers.get [("x-user-id", "u1")] "x-user-id" = some "u1" ∧ ("u1" : String) ≠ " u1 ") ∧
    apiRequest (fun _ => true) "用户" "/state" ⟨none, none, none⟩ =
      .error byteStringTypeError :=
  ⟨rfl, ⟨by decide, by decide⟩, rfl⟩

/-- C7 amended: when the bootstrapped identity is a valid header value, the
request `api(path, opts)` issues goes to the base path followed by `path`; its
`x-user-id` header reads the identity with leading and trailing HTTP whitespace
removed (the identity itself when it has none), whatever `opts` supplied under
that name; `method` and `body` are those of `opts`, and so is every header
under a name other than `x-user-id` and `content-type`. When the identity is
not a valid header value, `api` fails before a request is issued. This holds
for every outcome of the comparison of line 30. -/
theorem apiRequest_spec (notGet : String → Bool) (userId path : String) (opts : Opts) :
    (validHeaderValue userId = true →
      ∃ req, apiRequest notGet userId path opts = .ok req ∧
        req.url = API_BASE ++ path ∧
        req.headers.get "x-user-id" = some (normalizeValue userId) ∧
        (normalizeValue userId = userId → req.headers.get "x-user-id" = some userId) ∧
        req.method = opts.method ∧
        req.body = opts.body ∧
        (∀ name, byteLowercase name ≠ "x-user-id" → byteLowercase name ≠ "content-type" →
          req.headers.get name = (Headers.new (opts.headers.getD [])).get name)) ∧
    (validHeaderValue userId = false →
      ∃ message, apiRequest notGet userId path opts = .error message) := by
  have lx : byteLowercase "x-user-id" = "x-user-id" := by decide
  have lc : byteLowercase "content-type" = "content-type" := by decide
  have hxc : byteLowercase "x-user-id" ≠ byteLowercase "content-type" := by decide
  constructor
  · intro hv
    have hx : ∀ req : Request,
        apiRequest notGet userId path opts = .ok req →
        req.headers.get "x-user-id" = some (normalizeValue userId) := by
      intro req hreq
      rw [apiRequest_valid notGet userId path opts hv] at hreq
      cases hreq
      cases opts.method with
      | none => exact Headers.get_put_same _ _ _ _ rfl
      | some m =>
        by_cases hc : m ≠ "" ∧ notGet m = true
        · simp only [if_pos hc]
          rw [Headers.get_put_other _ _ _ _ hxc]
          exact Headers.get_put_same _ _ _ _ rfl
        · simp only [if_neg hc]
          exact Headers.get_put_same _ _ _ _ rfl
    refine ⟨_, apiRequest_valid notGet userId path opts hv, rfl, hx _ (apiRequest_valid _ _ _ _ hv),
      ?_, rfl, rfl, ?_⟩
    · intro hn
      rw [hx _ (apiRequest_valid _ _ _ _ hv), hn]
    · intro name h1 h2
      rw [← lx] at h1
      rw [← lc] at h2
      cases opts.method with
      | none => exact Headers.get_put_other _ _ _ _ h1
      | some m =>
        by_cases hc : m ≠ "" ∧ notGet m = true
        · simp only [if_pos hc]
          rw [Headers.get_put_other _ _ _ _ h2]
          exact Headers.get_put_other _ _ _ _ h1
        · simp only [if_neg hc]
          exact Headers.get_put_other _ _ _ _ h1
  · intro hv
    rcases apiRequest_invalid notGet userId path opts hv with h | h
    · exact ⟨_, h⟩
    · exact ⟨_, h⟩

/-- A `PUT` with a caller-supplied `X-User-Id` and `Accept`, under the
identity `u1` followed by a line feed: the identity, normalised, replaces the
supplied one, `Accept` passes through; and the identity `a`, NUL, `b` is
refused. -/
theorem apiRequest_spec_witness :
    (validHeaderValue "u1\n" = true ∧
      ∃ req, apiRequest (fun m => decide (m ≠ "GET")) "u1\n" "/plant"
          ⟨some "PUT", some "b", some [("X-User-Id", "mallory"), ("Accept", "text/html")]⟩ =
            .ok req ∧
        req.url = "/api/plant" ∧ req.headers.get "x-user-id" = some "u1" ∧
        req.method = some "PUT" ∧ req.body = some "b" ∧
        req.headers.get "Accept" = some "text/html") ∧
    (validHeaderValue "a\x00b" = false ∧
      ∃ message, apiRequest (fun m => decide (m ≠ "GET")) "a\x00b" "/plant"
          ⟨some "PUT", some "b", none⟩ = .error message) := by
  refine ⟨⟨by decide, ?_⟩, by decide, ?_⟩
  · obtain ⟨req, hreq, hurl, hid, _, hm, hb, hother⟩ :=
      (apiRequest_spec (fun m => decide (m ≠ "GET")) "u1\n" "/plant"
        ⟨some "PUT", some "b", some [("X-User-Id", "mallory"), ("Accept", "text/html")]⟩).1
        (by decide)
    refine ⟨req, hreq, hurl, hid, hm, hb, ?_⟩
    rw [hother "Accept" (by decide) (by decide)]
    decide
  · exact (apiRequest_spec (fun m => decide (m ≠ "GET")) "a\x00b" "/plant"
      ⟨some "PUT", some "b", none⟩).2 (by decide)

/-- C6 as stated fails: a response with success status 200 whose body is not
JSON (`res.json()` rejects) makes `api` fail, so a success status does not
suffice for `api` to return the parsed body. -/
theorem apiResult_success_status_may_fail :
    (⟨200, "OK", some "<html>", .error "Unexpected token <"⟩ : Response).ok = true ∧
    apiResult (.ok ⟨200, "OK", some "<html>", .error "Unexpected token <"⟩) =
      .error "Unexpected token <" ∧
    ¬ ∃ body, apiResult (.ok ⟨200, "OK", some "<html>", .error "Unexpected token <"⟩) =
      .ok body := by
  refine ⟨by decide, rfl, ?_⟩
  rintro ⟨body, h⟩
  cases h

/-- C6 amended: `api` returns a value only for a success status; for a success
status its outcome is that of parsing the body as JSON (the parsed body, or the
failure of the parse); for every non-success status, whatever its code, it
fails with the body text as message when the text can be read and with the
status text when it cannot. -/
theorem apiResult_spec (res : Response) :
    ((∃ body, apiResult (.ok res) = .ok body) ↔ (res.ok = true ∧ ∃ body, res.json = .ok body)) ∧
    (res.ok = true → apiResult (.ok res) = res.json) ∧
    (res.ok = false ↔ (res.status < 200 ∨ 299 < res.status)) ∧
    (res.ok = false → ∀ t, res.text = some t → apiResult (.ok res) = .error t) ∧
    (res.ok = false → res.text = none → apiResult (.ok res) = .error res.statusText) := by
  refine ⟨?_, ?_, ?_, ?_, ?_⟩
  · cases hok : res.ok
    · simp [apiResult, hok]
    · simp [apiResult, hok]
  · intro hok
    simp [apiResult, hok]
  · unfold Response.ok
    rw [decide_eq_false_iff_not]
    omega
  · intro hok t ht
    simp [apiResult, hok, ht]
  · intro hok ht
    simp [apiResult, hok, ht]

theorem apiResult_spec_witness :
    apiResult (.ok ⟨404, "Not Found", some "no such plot", .error "Unexpected token o"⟩) =
      .error "no such plot" ∧
    apiResult (.ok ⟨503, "Service Unavailable", none, .error "body unreadable"⟩) =
      .error "Service Unavailable" ∧
    apiResult (.ok ⟨200, "OK", none, .ok ⟨[⟨3, "lettuce", 0⟩]⟩⟩) = .ok ⟨[⟨3, "lettuce", 0⟩]⟩ :=
  ⟨(apiResult_spec ⟨404, "Not Found", some "no such plot", .error "Unexpected token o"⟩).2.2.2.1
      (by decide) "no such plot" rfl,
    (apiResult_spec ⟨503, "Service Unavailable", none, .error "body unreadable"⟩).2.2.2.2
      (by decide) rfl,
    (apiResult_spec ⟨200, "OK", none, .ok ⟨[⟨3, "lettuce", 0⟩]⟩⟩).2.1 (by decide)⟩

/-! ## Refresh and the action handlers -/

theorem apiRequest_state (notGet : String → Bool) (userId : String)
    (hv : validHeaderValue userId = true) :
    apiRequest notGet userId "/state" {} = .ok (stateRequest userId) := by
  rw [apiRequest_valid notGet userId "/state" {} hv]
  have lx : byteLowercase "x-user-id" = "x-user-id" := by decide
  simp [stateRequest, Headers.new, Headers.put, lx]
  decide

theorem apiRequest_post (notGet : String → Bool) (userId path body : String)
    (hv : validHeaderValue userId = true) :
    apiRequest notGet userId path { method := some "POST", body := some body } =
      .ok (postRequest notGet userId path body) := by
  rw [apiRequest_valid notGet userId path _ hv]
  have lx : byteLowercase "x-user-id" = "x-user-id" := by decide
  have lc : byteLowercase "content-type" = "content-type" := by decide
  have hne : ¬ ("x-user-id" : String) = "content-type" := by decide
  have hp : ("POST" : String) ≠ "" := by decide
  cases hn : notGet "POST" <;>
    simp [postRequest, Headers.new, Headers.put, lx, lc, hne, hp, hn]

theorem api_of_request (env : Env) (path : String) (opts : Opts) (p : Page) (req : Request)
    (h : apiRequest env.notGet env.userId path opts = .ok req) :
    api env path opts p =
      ({ p with sent := p.sent ++ [req] }, apiResult (env.net p.sent.length)) := by
  unfold api
  rw [h]

theorem api_of_error (env : Env) (path : String) (opts : Opts) (p : Page) (message : String)
    (h : apiRequest env.notGet env.userId path opts = .error message) :
    api env path opts p = (p, .error message) := by
  unfold api
  rw [h]

theorem refresh_eq (env : Env) (p : Page) :
    refresh env p =
      match (api env "/state" {} { p with status := "Loading…" }).2 with
      | .ok data =>
        ({ selectedPlot := p.selectedPlot
           grid := renderGrid env.now p.selectedPlot (buildById data.items) p.grid
           status := ""
           sent := (api env "/state" {} { p with status := "Loading…" }).1.sent }, .ok ())
      | .error message =>
        ({ selectedPlot := p.selectedPlot
           grid := renderGrid env.now p.selectedPlot emptyState p.grid
           status := message
           sent := (api env "/state" {} { p with status := "Loading…" }).1.sent }, .ok ()) := by
  unfold refresh api
  cases apiRequest env.notGet env.userId "/state" {} with
  | error e => rfl
  | ok req =>
    simp only []
    cases apiResult (env.net p.sent.length) <;> rfl

theorem refresh_completes (env : Env) (p : Page) : (refresh env p).2 = .ok () := by
  rw [refresh_eq]
  cases (api env "/state" {} { p with status := "Loading…" }).2 <;> rfl

theorem refresh_sent (env : Env) (p : Page) :
    (refresh env p).1.sent = (api env "/state" {} { p with status := "Loading…" }).1.sent := by
  rw [refresh_eq]
  cases (api env "/state" {} { p with status := "Loading…" }).2 <;> rfl

theorem refresh_sent_valid (env : Env) (p : Page) (hv : validHeaderValue env.userId = true) :
    (refresh env p).1.sent = p.sent ++ [stateRequest env.userId] := by
  rw [refresh_sent, api_of_request env _ _ _ _ (apiRequest_state env.notGet env.userId hv)]

/-- C5: `refresh` never hands a failure to its caller. When the `/state` call
succeeds with items list `L`, it ends with the grid rendered from the mapping
built from `L` and an empty status text; when the call fails with message `m`
it ends with the grid rendered from the empty mapping, all 36 plots `(empty)`,
and the status text `m`. The outcome of the call is that of `fetch` for a
valid identity, and the failure of `headers.set` otherwise. -/
theorem refresh_spec (env : Env) (p : Page) :
    (refresh env p).2 = .ok () ∧
    (∀ L, (api env "/state" {} { p with status := "Loading…" }).2 = .ok ⟨L⟩ →
      (refresh env p).1.grid = renderGrid env.now p.selectedPlot (buildById L) p.grid ∧
      (refresh env p).1.status = "") ∧
    (∀ m, (api env "/state" {} { p with status := "Loading…" }).2 = .error m →
      (refresh env p).1.grid = renderGrid env.now p.selectedPlot emptyState p.grid ∧
      (refresh env p).1.status = m ∧
      (refresh env p).1.grid.length = 36 ∧
      ∀ i, i < 36 → ∃ el, (refresh env p).1.grid[i]? = some el ∧ el.showsEmpty) ∧
    (validHeaderValue env.userId = true →
      (api env "/state" {} { p with status := "Loading…" }).2 =
        apiResult (env.net p.sent.length) ∧
      (refresh env p).1.sent = p.sent ++ [stateRequest env.userId]) ∧
    (validHeaderValue env.userId = false →
      (∃ m, (api env "/state" {} { p with status := "Loading…" }).2 = .error m) ∧
      (refresh env p).1.sent = p.sent) := by
  refine ⟨refresh_completes env p, ?_, ?_, ?_, ?_⟩
  · intro L hL
    rw [refresh_eq, hL]
    exact ⟨rfl, rfl⟩
  · intro m hm
    rw [refresh_eq, hm]
    refine ⟨rfl, rfl, renderGrid_length env.now p.selectedPlot emptyState p.grid, ?_⟩
    intro i hi
    exact ⟨_, renderGrid_getElem? env.now p.selectedPlot emptyState p.grid i hi,
      createPlot_none _ _ _ _ rfl⟩
  · intro hv
    refine ⟨?_, refresh_sent_valid env p hv⟩
    rw [api_of_request env _ _ _ _ (apiRequest_state env.notGet env.userId hv)]
  · intro hv
    rw [refresh_sent]
    rcases apiRequest_invalid env.notGet env.userId "/state" {} hv with h | h
    · rw [api_of_error env _ _ _ _ h]
      exact ⟨⟨_, rfl⟩, rfl⟩
    · rw [api_of_error env _ _ _ _ h]
      exact ⟨⟨_, rfl⟩, rfl⟩

/-- The scenario of the specification: the server answers `/state` with HTTP
500 and body `server error`; the status reads `server error` and every cell of
the grid shows `(empty)`. -/
theorem refresh_spec_witness :
    (refresh ⟨"u1", fun _ => .ok ⟨500, "Internal Server Error", some "server error",
        .error "Unexpected token s"⟩, fun _ => 0, fun m => decide (m ≠ "GET")⟩
      ⟨0, renderGrid (fun _ => 0) 0 (buildById [⟨3, "lettuce", 0⟩]) [], "", []⟩).1.status =
      "server error" ∧
    ((refresh ⟨"u1", fun _ => .ok ⟨500, "Internal Server Error", some "server error",
        .error "Unexpected token s"⟩, fun _ => 0, fun m => decide (m ≠ "GET")⟩
      ⟨0, renderGrid (fun _ => 0) 0 (buildById [⟨3, "lettuce", 0⟩]) [], "", []⟩).1.grid.all
        (fun el => decide el.showsEmpty) = true) ∧
    (refresh ⟨"u1", fun _ => .ok ⟨500, "Internal Server Error", some "server error",
        .error "Unexpected token s"⟩, fun _ => 0, fun m => decide (m ≠ "GET")⟩
      ⟨0, renderGrid (fun _ => 0) 0 (buildById [⟨3, "lettuce", 0⟩]) [], "", []⟩).1.grid.length =
      36 :=
  ⟨((refresh_spec ⟨"u1", fun _ => .ok ⟨500, "Internal Server Error", some "server error",
        .error "Unexpected token s"⟩, fun _ => 0, fun m => decide (m ≠ "GET")⟩
      ⟨0, renderGrid (fun _ => 0) 0 (buildById [⟨3, "lettuce", 0⟩]) [], "", []⟩).2.2.1
        "server error" rfl).2.1,
    by decide, by decide⟩

/-! ## The JSON bodies of the handlers -/

theorem expect_append (lit rest : List Char) : expect lit (lit ++ rest) = some rest := by
  induction lit with
  | nil => cases rest <;> rfl
  | cons l lit ih => simp [expect, ih]

theorem foldl_append_data (l : List String) (acc : String) :
    (l.foldl (fun r s => r ++ s) acc).data = acc.data ++ (l.map String.data).flatten := by
  induction l generalizing acc with
  | nil => simp
  | cons a l ih => simp [List.foldl_cons, ih, String.data_append]

theorem hexValue_digitChar (m : Nat) (h : m < 16) : hexValue (Nat.digitChar m) = some m := by
  interval_cases m <;> rfl

theorem hexValue_zero : hexValue (Char.ofNat 48) = some 0 := rfl

theorem readStringBody_escape (e ch : Char) (rest : List Char) (he : e.toNat ≠ 117)
    (hu : unescape e = some ch) :
    readStringBody (Char.ofNat 92 :: e :: rest) = consChar ch (readStringBody rest) := by
  rw [readStringBody.eq_def]
  simp [he, hu]

theorem readStringBody_control (n : Nat) (hn : n < 32) (rest : List Char) :
    readStringBody (Char.ofNat 92 :: Char.ofNat 117 :: Char.ofNat 48 :: Char.ofNat 48 ::
        Nat.digitChar (n / 16) :: Nat.digitChar (n % 16) :: rest) =
      consChar (Char.ofNat n) (readStringBody rest) := by
  have h1 : hexValue (Nat.digitChar (n / 16)) = some (n / 16) :=
    hexValue_digitChar _ (by omega)
  have h2 : hexValue (Nat.digitChar (n % 16)) = some (n % 16) :=
    hexValue_digitChar _ (by omega)
  have h3 : ((0 * 16 + 0) * 16 + n / 16) * 16 + n % 16 = n := by omega
  rw [readStringBody.eq_def]
  simp only [hexValue_zero, h1, h2, h3]
  have h4 : ¬ (55296 ≤ n ∧ n ≤ 57343) := by omega
  simp [h4]

theorem readStringBody_quoteJSONChar (c : Char) (rest : List Char) :
    readStringBody ((quoteJSONChar c).data ++ rest) = consChar c (readStringBody rest) := by
  have hc : Char.ofNat c.toNat = c := Char.ofNat_toNat c
  unfold quoteJSONChar
  split_ifs with h1 h2 h3 h4 h5 h6 h7 h8
  · rw [h1] at hc; subst hc
    exact readStringBody_escape (Char.ofNat 98) _ rest (by decide) rfl
  · rw [h2] at hc; subst hc
    exact readStringBody_escape (Char.ofNat 116) _ rest (by decide) rfl
  · rw [h3] at hc; subst hc
    exact readStringBody_escape (Char.ofNat 110) _ rest (by decide) rfl
  · rw [h4] at hc; subst hc
    exact readStringBody_escape (Char.ofNat 102) _ rest (by decide) rfl
  · rw [h5] at hc; subst hc
    exact readStringBody_escape (Char.ofNat 114) _ rest (by decide) rfl
  · rw [h6] at hc; subst hc
    exact readStringBody_escape (Char.ofNat 34) _ rest (by decide) rfl
  · rw [h7] at hc; subst hc
    exact readStringBody_escape (Char.ofNat 92) _ rest (by decide) rfl
  · have := readStringBody_control c.toNat h8 rest
    rw [hc] at this
    exact this
  · show readStringBody (c :: rest) = _
    rw [readStringBody.eq_def]
    simp [h6, h7, h8]

theorem readStringBody_quoted (cs rest : List Char) :
    readStringBody (((cs.map quoteJSONChar).map String.data).flatten ++ Char.ofNat 34 :: rest) =
      some (cs, rest) := by
  induction cs with
  | nil =>
    show readStringBody (Char.ofNat 34 :: rest) = _
    rw [readStringBody.eq_def]
    simp
  | cons c cs ih =>
    simp only [List.map_cons, List.flatten_cons, List.append_assoc]
    rw [readStringBody_quoteJSONChar, ih]
    rfl

theorem quoteJSONString_data (s : String) :
    (quoteJSONString s).data =
      Char.ofNat 34 :: (((s.toList.map quoteJSONChar).map String.data).flatten ++ [Char.ofNat 34]) := by
  unfold quoteJSONString String.join
  simp only [String.data_append, foldl_append_data]
  rfl

theorem digitChar_isDigit (m : Nat) (h : m < 10) :
    (Nat.digitChar m).isDigit = true ∧ (Nat.digitChar m).toNat - 48 = m ∧
    ((Nat.digitChar m).toNat = 48 → m = 0) := by
  interval_cases m <;> decide

theorem toDigitsCore_spec (fuel : Nat) : ∀ (n : Nat) (ds : List Char), n < fuel →
    ∃ pre, Nat.toDigitsCore 10 fuel n ds = pre ++ ds ∧ (∀ c ∈ pre, c.isDigit = true) ∧
      digitsValue pre = n ∧ (∃ c rest, pre = c :: rest ∧ (c.toNat = 48 → n = 0)) := by
  induction fuel with
  | zero => intro n ds h; omega
  | succ fuel ih =>
    intro n ds h
    have hd := digitChar_isDigit (n % 10) (Nat.mod_lt _ (by norm_num))
    unfold Nat.toDigitsCore
    by_cases h0 : n / 10 = 0
    · simp only [h0, if_true]
      refine ⟨[Nat.digitChar (n % 10)], rfl, by simpa using hd.1, ?_, _, [], rfl, ?_⟩
      · simp [digitsValue, hd.2.1]; omega
      · intro h48; have := hd.2.2 h48; omega
    · simp only [h0, if_false]
      obtain ⟨pre, hpre, hall, hval, c, rest, hcons, hlead⟩ :=
        ih (n / 10) (Nat.digitChar (n % 10) :: ds) (by omega)
      refine ⟨pre ++ [Nat.digitChar (n % 10)], by simp [hpre], ?_, ?_, c,
        rest ++ [Nat.digitChar (n % 10)], by simp [hcons], ?_⟩
      · intro x hx
        rcases List.mem_append.mp hx with hx | hx
        · exact hall x hx
        · simp at hx; rw [hx]; exact hd.1
      · unfold digitsValue at hval ⊢
        rw [List.foldl_append, hval]
        simp [hd.2.1]; omega
      · intro h48; have := hlead h48; omega

theorem readDigits_append (pre : List Char) (hall : ∀ c ∈ pre, c.isDigit = true)
    (tail : List Char) (htail : ∀ c rest, tail = c :: rest → c.isDigit = false) (acc : Nat) :
    readDigits acc (pre ++ tail) =
      (pre.foldl (fun a c => a * 10 + (c.toNat - 48)) acc, tail) := by
  induction pre generalizing acc with
  | nil =>
    cases tail with
    | nil => rfl
    | cons c rest => simp [readDigits, htail c rest rfl]
  | cons d pre ih =>
    have hdig : d.isDigit = true := hall d (by simp)
    simp only [List.cons_append, readDigits, hdig, if_true, List.foldl_cons]
    exact ih (fun c hc => hall c (by simp [hc])) _

theorem readNumber_toString (n : Nat) (tail : List Char)
    (htail : ∀ c rest, tail = c :: rest → c.isDigit = false) :
    readNumber ((toString n).data ++ tail) = some (n, tail) := by
  obtain ⟨pre, hpre, hall, hval, c, rest, hcons, hlead⟩ := toDigitsCore_spec (n + 1) n [] (by omega)
  have hdata : (toString n).data = pre := by
    show (Nat.toDigits 10 n) = pre
    unfold Nat.toDigits
    rw [hpre, List.append_nil]
  rw [hdata]
  have hread := readDigits_append pre hall tail htail 0
  subst hcons
  have hcdig : c.isDigit = true := hall c (by simp)
  unfold readNumber
  simp only [List.cons_append]
  by_cases h48 : c.toNat = 48
  · have hn : n = 0 := hlead h48
    subst hn
    have hrest : rest = [] := by
      have : Nat.toDigitsCore 10 1 0 [] = [Char.ofNat 48] := rfl
      rw [this] at hpre
      simp at hpre
      exact hpre.2
    subst hrest
    simp only [h48, if_true, List.nil_append]
    cases tail with
    | nil => rfl
    | cons d t => simp [htail d t rfl]
  · simp only [h48, if_false, hcdig, if_true]
    rw [← List.cons_append, hread]
    unfold digitsValue at hval
    rw [hval]

theorem readPlantBody_plantBody (k : Nat) (crop : String) :
    readPlantBody (plantBody k crop) = some (k, crop) := by
  have hdata : (plantBody k crop).toList =
      "\x7b\"plotId\":".toList ++ ((toString k).data ++
        (",\"crop\":\"".toList ++ ((((crop.toList.map quoteJSONChar).map String.data).flatten ++
          Char.ofNat 34 :: "\x7d".toList)))) := by
    unfold plantBody
    simp only [String.toList, String.data_append, quoteJSONString_data]
    simp
  unfold readPlantBody
  rw [hdata, expect_append]
  simp only [Option.bind_eq_bind, Option.some_bind]
  rw [readNumber_toString k _ (by intro c rest h; cases h; rfl)]
  simp only [Option.some_bind]
  rw [expect_append]
  simp only [Option.some_bind]
  rw [readStringBody_quoted]
  simp

theorem readHarvestBody_harvestBody (k : Nat) :
    readHarvestBody (harvestBody k) = some k := by
  have hdata : (harvestBody k).toList =
      "\x7b\"plotId\":".toList ++ ((toString k).data ++ "\x7d".toList) := by
    unfold harvestBody
    simp only [String.toList, String.data_append]
    simp
  unfold readHarvestBody
  rw [hdata, expect_append]
  simp only []
  rw [readNumber_toString k _ (by intro c rest h; cases h; rfl)]
  simp

/-! ## The action handlers -/

theorem plantClick_valid (env : Env) (crop : String) (p : Page)
    (hv : validHeaderValue env.userId = true) :
    plantClick env crop p =
      match apiResult (env.net p.sent.length) with
      | .ok _ => (refresh env { p with
          status := "Planting…"
          sent := p.sent ++
            [postRequest env.notGet env.userId "/plant" (plantBody p.selectedPlot crop)] }).1
      | .error m => { p with
          status := m
          sent := p.sent ++
            [postRequest env.notGet env.userId "/plant" (plantBody p.selectedPlot crop)] } := by
  unfold plantClick
  simp only []
  rw [api_of_request env _ _ _ _ (apiRequest_post env.notGet env.userId "/plant" _ hv)]
  cases apiResult (env.net p.sent.length) with
  | error m => rfl
  | ok body =>
    simp only []
    have h2 := refresh_completes env { p with
      status := "Planting…"
      sent := p.sent ++
        [postRequest env.notGet env.userId "/plant" (plantBody p.selectedPlot crop)] }
    revert h2
    cases refresh env { p with
      status := "Planting…"
      sent := p.sent ++
        [postRequest env.notGet env.userId "/plant" (plantBody p.selectedPlot crop)] } with
    | mk q r =>
      intro h2
      simp only [] at h2
      subst h2
      rfl

theorem harvestClick_valid (env : Env) (p : Page)
    (hv : validHeaderValue env.userId = true) :
    harvestClick env p =
      match apiResult (env.net p.sent.length) with
      | .ok _ => (refresh env { p with
          status := "Harvesting…"
          sent := p.sent ++
            [postRequest env.notGet env.userId "/harvest" (harvestBody p.selectedPlot)] }).1
      | .error m => { p with
          status := m
          sent := p.sent ++
            [postRequest env.notGet env.userId "/harvest" (harvestBody p.selectedPlot)] } := by
  unfold harvestClick
  simp only []
  rw [api_of_request env _ _ _ _ (apiRequest_post env.notGet env.userId "/harvest" _ hv)]
  cases apiResult (env.net p.sent.length) with
  | error m => rfl
  | ok body =>
    simp only []
    have h2 := refresh_completes env { p with
      status := "Harvesting…"
      sent := p.sent ++
        [postRequest env.notGet env.userId "/harvest" (harvestBody p.selectedPlot)] }
    revert h2
    cases refresh env { p with
      status := "Harvesting…"
      sent := p.sent ++
        [postRequest env.notGet env.userId "/harvest" (harvestBody p.selectedPlot)] } with
    | mk q r =>
      intro h2
      simp only [] at h2
      subst h2
      rfl

theorem handlers_invalid (env : Env) (crop : String) (p : Page)
    (hv : validHeaderValue env.userId = false) :
    (∃ m, plantClick env crop p = { p with status := m }) ∧
    (∃ m, harvestClick env p = { p with status := m }) := by
  constructor
  · unfold plantClick
    simp only []
    rcases apiRequest_invalid env.notGet env.userId "/plant"
      { method := some "POST", body := some (plantBody p.selectedPlot crop) } hv with h | h
    · rw [api_of_error env _ _ _ _ h]; exact ⟨_, rfl⟩
    · rw [api_of_error env _ _ _ _ h]; exact ⟨_, rfl⟩
  · unfold harvestClick
    simp only []
    rcases apiRequest_invalid env.notGet env.userId "/harvest"
      { method := some "POST", body := some (harvestBody p.selectedPlot) } hv with h | h
    · rw [api_of_error env _ _ _ _ h]; exact ⟨_, rfl⟩
    · rw [api_of_error env _ _ _ _ h]; exact ⟨_, rfl⟩

/-- C9 as stated fails: with the identity `用户` stored for the profile,
`headers.set` raises before `fetch` is reached; the plant handler on plot 10
with crop `wheat` issues no `POST /plant` at all and shows the message of that
failure. -/
theorem plantClick_without_post :
    plantClick ⟨"用户", fun _ => .ok ⟨200, "OK", none, .ok ⟨[]⟩⟩, fun _ => 0,
        fun m => decide (m ≠ "GET")⟩ "wheat" ⟨10, [], "", []⟩ =
      ⟨10, [], byteStringTypeError, []⟩ ∧
    (plantClick ⟨"用户", fun _ => .ok ⟨200, "OK", none, .ok ⟨[]⟩⟩, fun _ => 0,
        fun m => decide (m ≠ "GET")⟩ "wheat" ⟨10, [], "", []⟩).sent.length ≠ 1 := by
  decide

/-- C9 amended: when the bootstrapped identity is a valid header value, with
plot `k` selected and crop `c` chosen the plant handler issues one
`POST /plant` whose body is a JSON text denoting the object with `plotId` `k`
and `crop` `c` (the harvest handler one `POST /harvest` whose body denotes the
object with `plotId` `k`). When that call succeeds the handler ends in the state
one run of `refresh` leaves, having issued the `POST` and then the one
`GET /state` of that refresh; when it fails with message `m` the handler issues
nothing else, leaves grid and selection as they were and sets the status text
to `m`. When the identity is not a valid header value the handler issues no
request, leaves grid and selection as they were and shows the failure. -/
theorem handlers_spec (env : Env) (crop : String) (p : Page) :
    (validHeaderValue env.userId = true →
      ((postRequest env.notGet env.userId "/plant" (plantBody p.selectedPlot crop)).url =
          "/api/plant" ∧
        (postRequest env.notGet env.userId "/plant" (plantBody p.selectedPlot crop)).method =
          some "POST" ∧
        (∃ body,
          (postRequest env.notGet env.userId "/plant" (plantBody p.selectedPlot crop)).body =
            some body ∧
          readPlantBody body = some (p.selectedPlot, crop)) ∧
        (∀ body, apiResult (env.net p.sent.length) = .ok body →
          plantClick env crop p = (refresh env { p with
            status := "Planting…"
            sent := p.sent ++
              [postRequest env.notGet env.userId "/plant" (plantBody p.selectedPlot crop)] }).1 ∧
          (plantClick env crop p).sent =
            p.sent ++ [postRequest env.notGet env.userId "/plant" (plantBody p.selectedPlot crop),
              stateRequest env.userId]) ∧
        (∀ m, apiResult (env.net p.sent.length) = .error m →
          plantClick env crop p = { p with
            status := m
            sent := p.sent ++
              [postRequest env.notGet env.userId "/plant"
                (plantBody p.selectedPlot crop)] })) ∧
      ((postRequest env.notGet env.userId "/harvest" (harvestBody p.selectedPlot)).url =
          "/api/harvest" ∧
        (postRequest env.notGet env.userId "/harvest" (harvestBody p.selectedPlot)).method =
          some "POST" ∧
        (∃ body,
          (postRequest env.notGet env.userId "/harvest" (harvestBody p.selectedPlot)).body =
            some body ∧
          readHarvestBody body = some p.selectedPlot) ∧
        (∀ body, apiResult (env.net p.sent.length) = .ok body →
          harvestClick env p = (refresh env { p with
            status := "Harvesting…"
            sent := p.sent ++
              [postRequest env.notGet env.userId "/harvest" (harvestBody p.selectedPlot)] }).1 ∧
          (harvestClick env p).sent =
            p.sent ++ [postRequest env.notGet env.userId "/harvest" (harvestBody p.selectedPlot),
              stateRequest env.userId]) ∧
        (∀ m, apiResult (env.net p.sent.length) = .error m →
          harvestClick env p = { p with
            status := m
            sent := p.sent ++
              [postRequest env.notGet env.userId "/harvest"
                (harvestBody p.selectedPlot)] }))) ∧
    (validHeaderValue env.userId = false →
      (∃ m, plantClick env crop p = { p with status := m }) ∧
      (∃ m, harvestClick env p = { p with status := m })) := by
  refine ⟨fun hv => ⟨⟨rfl, rfl, ⟨_, rfl, readPlantBody_plantBody _ _⟩, ?_, ?_⟩,
    ⟨rfl, rfl, ⟨_, rfl, readHarvestBody_harvestBody _⟩, ?_, ?_⟩⟩, handlers_invalid env crop p⟩
  · intro body h
    rw [plantClick_valid env crop p hv, h]
    refine ⟨rfl, ?_⟩
    simp only []
    rw [refresh_sent_valid env _ hv]
    simp
  · intro m h
    rw [plantClick_valid env crop p hv, h]
  · intro body h
    rw [harvestClick_valid env p hv, h]
    refine ⟨rfl, ?_⟩
    simp only []
    rw [refresh_sent_valid env _ hv]
    simp
  · intro m h
    rw [harvestClick_valid env p hv, h]

/-- The scenario of the specification: plot 10 selected, crop `wheat`, both
calls answered with success; the handler sends `POST /plant` with body
`{"plotId":10,"crop":"wheat"}` and then the `GET /state` of the refresh. When
the `POST` is answered with HTTP 409 and body `occupied`, only the `POST` is
sent, the grid stays and the status reads `occupied`. A crop name with a quote
and a line feed is read back from the body as it was chosen. -/
theorem handlers_spec_witness :
    (plantClick ⟨"u1", fun _ => .ok ⟨200, "OK", none, .ok ⟨[]⟩⟩, fun _ => 0,
        fun m => decide (m ≠ "GET")⟩ "wheat" ⟨10, [], "", []⟩).sent =
      [⟨"/api/plant", some "POST", some "\x7b\"plotId\":10,\"crop\":\"wheat\"\x7d",
          [("x-user-id", "u1"), ("content-type", "application/json")]⟩,
        ⟨"/api/state", none, none, [("x-user-id", "u1")]⟩] ∧
    plantClick ⟨"u1", fun _ => .ok ⟨409, "Conflict", some "occupied", .ok ⟨[]⟩⟩, fun _ => 0,
        fun m => decide (m ≠ "GET")⟩ "wheat" ⟨10, [], "", []⟩ =
      ⟨10, [], "occupied",
        [⟨"/api/plant", some "POST", some "\x7b\"plotId\":10,\"crop\":\"wheat\"\x7d",
          [("x-user-id", "u1"), ("content-type", "application/json")]⟩]⟩ ∧
    readPlantBody "\x7b\"plotId\":10,\"crop\":\"wheat\"\x7d" = some (10, "wheat") ∧
    plantBody 7 "a\"b\nc" = "\x7b\"plotId\":7,\"crop\":\"a\\\"b\\nc\"\x7d" ∧
    readPlantBody "\x7b\"plotId\":7,\"crop\":\"a\\\"b\\nc\"\x7d" = some (7, "a\"b\nc") ∧
    harvestBody 10 = "\x7b\"plotId\":10\x7d" ∧
    readHarvestBody "\x7b\"plotId\":10\x7d" = some 10 :=
  ⟨(((handlers_spec ⟨"u1", fun _ => .ok ⟨200, "OK", none, .ok ⟨[]⟩⟩, fun _ => 0,
        fun m => decide (m ≠ "GET")⟩ "wheat" ⟨10, [], "", []⟩).1 (by decide)).1.2.2.2.1
      ⟨[]⟩ rfl).2,
    ((handlers_spec ⟨"u1", fun _ => .ok ⟨409, "Conflict", some "occupied", .ok ⟨[]⟩⟩, fun _ => 0,
        fun m => decide (m ≠ "GET")⟩ "wheat" ⟨10, [], "", []⟩).1 (by decide)).1.2.2.2.2
      "occupied" rfl,
    by decide, by decide, by decide, by decide, by decide⟩

/-! ## Identity bootstrap -/

/-- C8, the failing case: with nothing stored under `vf_user_id` and
`crypto.randomUUID` not a function, `getUserId` raises the `TypeError` of
`Date.now().tostring(36)`; no identifier is returned and nothing is stored. -/
theorem getUserId_fallback_throws :
    (getUserId none (fun _ => none)).2 = .error tostringTypeError ∧
    (getUserId none (fun _ => none)).1 "vf_user_id" = none := by
  exact ⟨rfl, rfl⟩

/-- With `crypto.randomUUID` available the bootstrap behaves as specified: a
stored identifier is returned and storage is left as it was; with none stored,
the generated identifier `u` is returned and stored under `vf_user_id`, and a
second call returns `u` again and writes nothing. -/
theorem getUserId_with_randomUUID (u : String) (ls : Storage) :
    (∀ v, ls "vf_user_id" = some v → v ≠ "" →
      getUserId (some u) ls = (ls, .ok v)) ∧
    (ls "vf_user_id" = none →
      (getUserId (some u) ls).2 = .ok u ∧
      (getUserId (some u) ls).1 "vf_user_id" = some u ∧
      (∀ k, k ≠ "vf_user_id" → (getUserId (some u) ls).1 k = ls k) ∧
      (u ≠ "" → ∀ u2, getUserId (some u2) (getUserId (some u) ls).1 =
        ((getUserId (some u) ls).1, .ok u))) := by
  refine ⟨?_, ?_⟩
  · intro v hv hne
    simp [getUserId, hv, hne]
  · intro hnone
    have h1 : getUserId (some u) ls = (ls.setItem "vf_user_id" u, .ok u) := by
      simp [getUserId, hnone]
    rw [h1]
    refine ⟨rfl, by simp [Storage.setItem], ?_, ?_⟩
    · intro k hk
      simp [Storage.setItem, hk]
    · intro hu u2
      simp [getUserId, Storage.setItem, hu]

end VirtualFarm
